import Mathlib

/-!
Verification of the FSDP per-parameter sharding core
(`torch/distributed/_composable/fsdp/_fsdp_param.py`).

The Python module is embedded shallowly:
- tensors become records carrying a storage identity, a dtype, a logical
  element count, a current storage size (0 when freed) and the flat values;
- the `FSDPParam` object becomes the structure `FSDPParam`; the module
  bindings (`nn.Module._parameters`) become an explicit environment mapping
  `(module, parameter name)` keys to bound parameter-object identities;
- fallible methods return `Except Err _` paired with the state after the
  call (Python raises before mutating in all the modelled paths, except the
  one mid-way assertion of `to_sharded_post_forward`, which is reproduced);
- the optional all-gather extension hooks (`fsdp_pre_all_gather`,
  `fsdp_post_all_gather`) of the sharded local tensor become optional
  fields of the parameter.
-/

/-- Dtype tags. The numeric content of a dtype cast is delegated by the
source to a generic cast kernel and is out of scope, so values are carried
through casts unchanged and only the tag changes. -/
inductive Dtype where
  | float32
  | float16
  | bfloat16
  | uint8
  deriving DecidableEq, Repr

/-- A torch device: a device type string (such as "cuda" or "meta") and an
index. -/
structure Device where
  type : String
  index : Nat
  deriving DecidableEq, Repr

/-- The sharded-state enum of `_fsdp_param.py`. -/
inductive ShardedState where
  | SHARDED
  | SHARDED_POST_FORWARD
  | UNSHARDED
  deriving DecidableEq, Repr

/-- DTensor placements, as far as the constructor bookkeeping needs them. -/
inductive Placement where
  | replicate
  | shard (dim : Nat)
  deriving DecidableEq, Repr

/-- The errors the module can raise.  Each constructor stands for one of the
distinct `raise`/assert sites, keeping the data the message interpolates. -/
inductive Err where
  | deviceMismatch (expected got : Device)
  | notImplemented (msg : String)
  | assertionError (msg : String)
  | assertInStates (expected : List ShardedState) (actual : ShardedState)
  | divisibility (numel shardWorldSize : Nat)
  | attributeError (name : String)
  deriving DecidableEq, Repr

/-- A 1-D tensor handle: a stable storage identity `id`, the dtype, the
logical element count `numel`, the current storage size in elements
(`storageElems`, `0` when freed by `free_storage`) and the flat values. -/
structure Tensor1D where
  id : Nat
  dtype : Dtype
  numel : Nat
  storageElems : Nat
  data : List Int
  deriving DecidableEq, Repr

/-- An N-D tensor value, as produced/consumed by the extension hooks:
storage identity, dtype, shape and flat (row-major) values. -/
structure NDT where
  id : Nat
  dtype : Dtype
  size : List Nat
  data : List Int
  deriving DecidableEq, Repr

/-- `tensor.view(-1)`: same storage, flattened. -/
def ndt_flatten (t : NDT) : Tensor1D :=
  ⟨t.id, t.dtype, t.size.prod, t.size.prod, t.data⟩

/-- `free_storage`: resize the underlying storage to zero bytes if it is not
already empty.  The handle (its `id`, `dtype`, `numel`) is untouched. -/
def free_storage (t : Tensor1D) : Tensor1D :=
  if t.storageElems ≠ 0 then { t with storageElems := 0, data := [] } else t

/-- `alloc_storage`: resize the underlying storage to the tensor's full byte
size if it does not already have it.  Freshly allocated memory is
uninitialized; the model fills it with zeros as a deterministic stand-in. -/
def alloc_storage (t : Tensor1D) : Tensor1D :=
  if t.storageElems ≠ t.numel then
    { t with storageElems := t.numel, data := List.replicate t.numel 0 }
  else t

/-- A `nn.Parameter` object wrapping sharded data: object identity plus the
requires-grad flag (its values live in the parameter's sharded storage). -/
structure ParamObj where
  id : Nat
  requires_grad : Bool
  deriving DecidableEq, Repr

/-- The unsharded `nn.Parameter` view object: a stable object identity, the
currently reassembled values, and the requires-grad flag. -/
structure UnshardedParam where
  id : Nat
  vals : List Int
  requires_grad : Bool
  deriving DecidableEq, Repr

/-- `ParamModuleInfo`: the owning module and parameter name, plus the
shared module/name aliases of the same parameter. -/
structure ParamModuleInfo where
  module : Nat
  param_name : String
  shared_modules : List Nat
  shared_param_names : List String
  deriving DecidableEq, Repr

/-- Modelled from the spec: the mesh/topology resolver is an external
collaborator; a mesh is an opaque descriptor with an identity, an optional
parent mesh and the dimension it occupies inside that parent. -/
structure MeshDesc where
  id : Nat
  parent : Option Nat
  parent_dim : Option Nat
  deriving DecidableEq, Repr

/-- `FSDPMeshInfo`: the mesh plus this rank's coordinates on the shard mesh
dimension.  `is_hsdp` stands for the `HSDPMeshInfo` subclass (a replicate
mesh dimension exists). -/
structure FSDPMeshInfo where
  mesh : MeshDesc
  shard_mesh_rank : Nat
  shard_mesh_size : Nat
  shard_mesh_dim : Nat
  replicate_mesh_dim : Option Nat
  is_hsdp : Bool
  deriving DecidableEq, Repr

/-- The DTensor spec of a tensor-parallel parameter (`param._spec`): its TP
mesh and placements. -/
structure TPSpec where
  mesh : MeshDesc
  placements : List Placement
  deriving DecidableEq, Repr

/-- `ExtensionsData`: user metadata passed from the pre- to the
post-all-gather hook, and the recorded all-gather input sizes used to
unflatten the all-gather outputs. -/
structure ExtensionsData where
  all_gather_metadata : Option Int
  all_gather_input_sizes : List (List Nat)
  deriving DecidableEq, Repr

/-- `ExtensionsData.clear`. -/
def ExtensionsData.clear : ExtensionsData := ⟨none, []⟩

/-- The type of the `fsdp_post_all_gather` hook: from the unflattened
all-gather outputs, the saved metadata and the target dtype it produces the
values of the unsharded tensor and the values of its inner tensors (the
same function also serves the `out=` re-run, which writes those values into
the existing objects). -/
def PostHook : Type :=
  List NDT → Option Int → Dtype → List Int × List (List Int)

/-- The `FSDPParam` entity. Field names follow the Python attributes.  The
extension hooks live on the sharded local tensor in the source; presence
and behavior are carried here as optional fields (`fsdp_pre_all_gather` as
its result value, since it is always invoked on the same mesh). -/
structure FSDPParam where
  _module_info : ParamModuleInfo
  mesh_info : FSDPMeshInfo
  post_forward_mesh_info : Option FSDPMeshInfo
  device : Device
  is_dtensor : Bool
  _global_placements : List Placement
  _global_size : List Nat
  _orig_size : List Nat
  sharded_size : List Nat
  padded_sharded_param_size : List Nat
  sharded_post_forward_size : List Nat
  _sharded_param_data : Tensor1D
  sharded_param : ParamObj
  _sharded_post_forward_param_data : Option Tensor1D
  _sharded_post_forward_param : Option ParamObj
  _unsharded_param : Option UnshardedParam
  all_gather_outputs : List Tensor1D
  _extensions_data : ExtensionsData
  _unsharded_inner_tensors : List Tensor1D
  sharded_state : ShardedState
  orig_dtype : Dtype
  param_dtype : Option Dtype
  reduce_dtype : Option Dtype
  fsdp_pre_all_gather : Option (List NDT × Int)
  fsdp_post_all_gather : Option PostHook

/-- The module-binding environment: which parameter object id is bound
under each `(module, name)` key. -/
def Env : Type := Nat × String → Option Nat

/-- The whole system: the parameter, the module bindings, a fresh-identity
counter for newly created objects/storages, and a count of how many times
the expensive `requires_grad_` boundary was actually crossed. -/
structure Sys where
  p : FSDPParam
  env : Env
  nextId : Nat
  rgWrites : Nat

/-- `unsafe_setattr_param`: bind a parameter object under `(module, name)`.
The source's fast path writes `module._parameters[name]` directly and the
slow path goes through `setattr`; both produce this binding. -/
def setattr_param (env : Env) (m : Nat) (name : String) (pid : Nat) : Env :=
  fun k => if k = (m, name) then some pid else env k

/-- `_setattr_on_modules`: bind on the owning module and on every shared
module/name alias. -/
def _setattr_on_modules (mi : ParamModuleInfo) (pid : Nat) (env : Env) : Env :=
  (mi.shared_modules.zip mi.shared_param_names).foldl
    (fun e km => setattr_param e km.1 km.2 pid)
    (setattr_param env mi.module mi.param_name pid)

/-- `_assert_in_states`: the state-contract check, failing with an error
that names the expected states and the actual one. -/
def _assert_in_states (states : List ShardedState) (st : ShardedState) :
    Except Err Unit :=
  if st ∈ states then .ok () else .error (.assertInStates states st)

/-- Ceiling division, `ceil(n / w)`. -/
def ceil_div (n w : Nat) : Nat := (n + w - 1) / w

/-- Modelled from the spec: the chunk partitioner `_chunk_with_empty` (in
`_fsdp_common.py`, not under `src/`) wraps `torch.chunk` along dim 0 and
pads the chunk list with empty tensors up to `w` entries.  Each chunk takes
`ceil(n / w)` rows while rows remain, the chunk reaching the end of the
tensor may be ragged, and the remaining chunks are empty (spec section 2:
"last chunk is empty or partial"; Scenario B: `w = 3`, `n = 10` gives rows
`4, 4, 2`).  This lists the dim-0 sizes of the `w` chunks. -/
def chunkDim0Sizes (n w : Nat) : List Nat :=
  (List.range w).map fun i => min (ceil_div n w) (n - i * ceil_div n w)

/-- The dim-0 size of chunk `r` (0 beyond the chunk list). -/
def chunk_dim0 (n w r : Nat) : Nat := (chunkDim0Sizes n w).getD r 0

/-- Modelled from the spec: `_get_dim0_chunked_size` (in `_fsdp_common.py`,
not under `src/`) returns the chunk's own size when it has elements and
`[0] ++ trailing dims` for a 0-element chunk, preserving trailing dims. -/
def _get_dim0_chunked_size (d : Nat) (rest : List Nat) : List Nat :=
  if d * rest.prod = 0 then 0 :: rest else d :: rest

/-- Modelled from the spec: `_to_dtype_if_needed` (in `_fsdp_common.py`,
not under `src/`) casts the tensor to the given dtype when one is given and
differs; the cast produces a new tensor with fresh storage, so the fresh-id
counter is threaded.  Cast numerics are delegated (spec non-goal); values
are carried unchanged under the new dtype tag. -/
def _to_dtype_if_needed (t : Tensor1D) (d : Option Dtype) (nid : Nat) :
    Tensor1D × Nat :=
  match d with
  | none => (t, nid)
  | some dd =>
    if t.dtype ≠ dd then ({ t with id := nid, dtype := dd }, nid + 1)
    else (t, nid)

/-- The inputs `FSDPParam.__init__` consumes about the original parameter:
its device, dtype, global and local sizes, the flat local values, the
requires-grad flag, whether it is a `DTensor` (and then its TP spec), and
the extension hooks defined on its local tensor class. -/
structure ParamInput where
  device : Device
  dtype : Dtype
  size : List Nat
  local_size : List Nat
  data : List Int
  requires_grad : Bool
  is_dtensor : Bool
  _tp_spec : Option TPSpec
  fsdp_pre_all_gather : Option (List NDT × Int)
  fsdp_post_all_gather : Option PostHook

/-- The DTensor branch of `_init_sharded_param`: validates the TP
configuration (no TP with HSDP, common parent mesh, 1-D TP) and computes
the global placements and size; the plain-tensor branch computes them from
the FSDP mesh alone. -/
def dtensor_global_info (inp : ParamInput) (mesh_info : FSDPMeshInfo) :
    Except Err (List Placement × List Nat) :=
  if inp.is_dtensor then
    match inp._tp_spec with
    | none => .error (.assertionError "DTensor parameter without a spec")
    | some tp =>
      if mesh_info.shard_mesh_dim ≠ 0 ∨ mesh_info.replicate_mesh_dim ≠ none then
        .error (.notImplemented "Using TP with HSDP is not supported")
      else
        match mesh_info.mesh.parent, tp.mesh.parent with
        | some dpg, some tpg =>
          if dpg ≠ tpg then
            .error (.assertionError
              "FSDP requires the DP and TP mesh to have the same parent mesh")
          else if tp.placements.length ≠ 1 then
            .error (.notImplemented "FSDP only supports 1D TP")
          else
            match mesh_info.mesh.parent_dim, tp.mesh.parent_dim with
            | some dpd, some tpd =>
              let g : List Placement :=
                (([Placement.replicate, Placement.replicate].set
                  dpd (Placement.shard 0)).set
                  tpd (tp.placements.headD Placement.replicate))
              .ok (g, inp.size)
            | _, _ => .error (.assertionError "parent mesh dim is None")
        | _, _ =>
          .error (.assertionError
            "FSDP requires the DP and TP mesh to have the same parent mesh")
  else
    .ok ((if mesh_info.is_hsdp then [Placement.replicate, Placement.shard 0]
          else [Placement.shard 0]), inp.size)

/-- `_init_extensions`: both hooks or neither must be defined; with hooks,
dim-0 sharding must be even (the padded sharded size must equal the sharded
local tensor's size). -/
def _init_extensions_check (inp : ParamInput)
    (padded local_sz : List Nat) : Except Err Unit :=
  if inp.fsdp_pre_all_gather.isSome ≠ inp.fsdp_post_all_gather.isSome then
    .error (.assertionError
      "Both fsdp_pre_all_gather and fsdp_post_all_gather should be defined if using all-gather extensions")
  else if inp.fsdp_pre_all_gather.isSome ∧ padded ≠ local_sz then
    .error (.notImplemented
      "FSDP all-gather extensions require even sharding on dim-0")
  else .ok ()

/-- `FSDPParam.__init__` / `_init_sharded_param`: checks the device (meta
tensors exempt), validates any TP configuration, chunks the local tensor on
dim 0, builds the zero-padded sharded storage holding this rank's chunk,
wraps the unpadded slice as the sharded parameter (the DTensor wrap checks
the slice shape against the computed sharded size), records the post-forward
shard metadata when a post-forward mesh is configured, runs the extension
presence/evenness checks, binds the sharded parameter on the modules, and
starts in state `SHARDED`.  Storage id 0 is the padded sharded storage and
object id 1 the sharded parameter; the fresh-id counter starts at 2. -/
def fsdp_param_init (inp : ParamInput) (module_info : ParamModuleInfo)
    (mesh_info : FSDPMeshInfo) (post_forward_mesh_info : Option FSDPMeshInfo)
    (device : Device) (env : Env) : Except Err Sys :=
  if inp.device ≠ device ∧ inp.device.type ≠ "meta" then
    .error (.deviceMismatch device inp.device)
  else
    match dtensor_global_info inp mesh_info with
    | .error e => .error e
    | .ok g =>
      let n := inp.local_size.headD 0
      let rest := inp.local_size.tail
      let w := mesh_info.shard_mesh_size
      let r := mesh_info.shard_mesh_rank
      let c := (chunkDim0Sizes n w).headD 0
      let d := chunk_dim0 n w r
      let sharded_size := _get_dim0_chunked_size d rest
      let q := rest.prod
      let shard_vals := (inp.data.drop (r * c * q)).take (d * q)
      let padded_vals := shard_vals ++ List.replicate (c * q - shard_vals.length) 0
      if (d :: rest) ≠ sharded_size then
        .error (.assertionError "Expects size to match the sharded size")
      else
        match _init_extensions_check inp (c :: rest) (d :: rest) with
        | .error e => .error e
        | .ok _ =>
          let sp : ParamObj := ⟨1, inp.requires_grad⟩
          .ok
            { p :=
                { _module_info := module_info
                  mesh_info := mesh_info
                  post_forward_mesh_info := post_forward_mesh_info
                  device := device
                  is_dtensor := inp.is_dtensor
                  _global_placements := g.1
                  _global_size := g.2
                  _orig_size := inp.local_size
                  sharded_size := sharded_size
                  padded_sharded_param_size := c :: rest
                  sharded_post_forward_size :=
                    match post_forward_mesh_info with
                    | some mi =>
                      _get_dim0_chunked_size
                        (chunk_dim0 n mi.shard_mesh_size mi.shard_mesh_rank) rest
                    | none => []
                  _sharded_param_data := ⟨0, inp.dtype, c * q, c * q, padded_vals⟩
                  sharded_param := sp
                  _sharded_post_forward_param_data := none
                  _sharded_post_forward_param := none
                  _unsharded_param := none
                  all_gather_outputs := []
                  _extensions_data := ExtensionsData.clear
                  _unsharded_inner_tensors := []
                  sharded_state := .SHARDED
                  orig_dtype := inp.dtype
                  param_dtype := none
                  reduce_dtype := none
                  fsdp_pre_all_gather := inp.fsdp_pre_all_gather
                  fsdp_post_all_gather := inp.fsdp_post_all_gather }
              env := _setattr_on_modules module_info sp.id env
              nextId := 2
              rgWrites := 0 }

/-- `init_dtype_attrs`: record the original dtype and the mixed-precision
dtypes, clamping `param_dtype` to `none` when no cast is required. -/
def init_dtype_attrs (param_dtype reduce_dtype : Option Dtype) (s : Sys) : Sys :=
  let od := s.p._sharded_param_data.dtype
  { s with p :=
      { s.p with
        orig_dtype := od
        param_dtype := if param_dtype = some od then none else param_dtype
        reduce_dtype := reduce_dtype } }

/-- `init_all_gather_outputs`: allocate the all-gather output buffers, one
per (input numel, input dtype) pair, each of `numel * world_size` elements;
a no-op once `all_gather_outputs` is nonempty.  `torch.empty` memory is
uninitialized; the model fills it with zeros. -/
def init_all_gather_outputs (all_gather_input_numels : List Nat)
    (all_gather_input_dtypes : List Dtype) (world_size : Nat)
    (_device : Device) (s : Sys) : Sys :=
  if s.p.all_gather_outputs ≠ [] then s
  else
    let pairs := all_gather_input_numels.zip all_gather_input_dtypes
    { s with
      p := { s.p with all_gather_outputs :=
        pairs.enum.map fun inmdt =>
          (⟨s.nextId + inmdt.1, inmdt.2.2, inmdt.2.1 * world_size,
            inmdt.2.1 * world_size,
            List.replicate (inmdt.2.1 * world_size) 0⟩ : Tensor1D) }
      nextId := s.nextId + pairs.length }

/-- `alloc_all_gather_outputs`: (re)allocate the storage of every all-gather
output buffer. -/
def alloc_all_gather_outputs (s : Sys) : Sys :=
  { s with p :=
      { s.p with all_gather_outputs := s.p.all_gather_outputs.map alloc_storage } }

/-- `free_unsharded_param`: resize every all-gather output buffer and every
extension inner buffer to zero bytes. -/
def free_unsharded_param (s : Sys) : Sys :=
  { s with p :=
      { s.p with
        all_gather_outputs := s.p.all_gather_outputs.map free_storage
        _unsharded_inner_tensors :=
          s.p._unsharded_inner_tensors.map free_storage } }

/-- `_unflatten_all_gather_outputs`: view each all-gather output with the
recorded all-gather input's trailing dims (`t.view(-1, *s[1:])`). -/
def _unflatten_all_gather_outputs (p : FSDPParam) : List NDT :=
  (p.all_gather_outputs.zip p._extensions_data.all_gather_input_sizes).map
    fun ts =>
      ⟨ts.1.id, ts.1.dtype, (ts.1.data.length / ts.2.tail.prod) :: ts.2.tail,
        ts.1.data⟩

/-- `init_unsharded_param`.  First call: run the post-all-gather hook (or
take the sole all-gather output directly), view it with the original size,
wrap it for DTensor parameters, and create the unsharded parameter object
(a fresh identity) with the shard's requires-grad flag.  Subsequent calls:
a plain `return` without a post hook; with one, reallocate the inner
buffers and re-run only the hook in place (`out=`), writing into the same
objects, then clear the single-use metadata. -/
def init_unsharded_param (s : Sys) : Except Err Unit × Sys :=
  match s.p._unsharded_param with
  | some u =>
    match s.p.fsdp_post_all_gather with
    | none => (.ok (), s)
    | some postFn =>
      let inner := s.p._unsharded_inner_tensors.map alloc_storage
      let pA := { s.p with _unsharded_inner_tensors := inner }
      let outs := _unflatten_all_gather_outputs pA
      let res := postFn outs pA._extensions_data.all_gather_metadata
        (pA.param_dtype.getD pA.orig_dtype)
      let inner2 := (inner.zip res.2).map fun tv => { tv.1 with data := tv.2 }
      (.ok (),
        { s with p :=
            { pA with
              _unsharded_param := some { u with vals := res.1 }
              _unsharded_inner_tensors := inner2
              _extensions_data := ExtensionsData.clear } })
  | none =>
    match s.p.fsdp_post_all_gather with
    | some postFn =>
      let outs := _unflatten_all_gather_outputs s.p
      let res := postFn outs s.p._extensions_data.all_gather_metadata
        (s.p.param_dtype.getD s.p.orig_dtype)
      let innerTs := res.2.enum.map fun iv =>
        (⟨s.nextId + iv.1, s.p.param_dtype.getD s.p.orig_dtype,
          iv.2.length, iv.2.length, iv.2⟩ : Tensor1D)
      let nid1 := s.nextId + res.2.length
      let u : UnshardedParam :=
        ⟨nid1, res.1.take s.p._orig_size.prod, s.p.sharded_param.requires_grad⟩
      (.ok (),
        { s with
          p := { s.p with
                 _unsharded_param := some u
                 _unsharded_inner_tensors := innerTs
                 _extensions_data := ExtensionsData.clear }
          nextId := nid1 + 1 })
    | none =>
      match s.p.all_gather_outputs with
      | [b] =>
        let u : UnshardedParam :=
          ⟨s.nextId, b.data.take s.p._orig_size.prod,
            s.p.sharded_param.requires_grad⟩
        (.ok (),
          { s with
            p := { s.p with _unsharded_param := some u }
            nextId := s.nextId + 1 })
      | _ => (.error (.assertionError "len(self.all_gather_outputs) == 1"), s)

/-- `to_sharded`: rebind the sharded parameter on the modules, free the
unsharded buffers, set state `SHARDED`.  Legal from any state. -/
def to_sharded (s : Sys) : Sys :=
  let s1 := free_unsharded_param
    { s with env := _setattr_on_modules s.p._module_info s.p.sharded_param.id s.env }
  { s1 with p := { s1.p with sharded_state := .SHARDED } }

/-- `to_unsharded`: copy the requires-grad flag from the shard to the
unsharded view when they differ (counting the expensive boundary crossing),
rebind the unsharded view on the owning module and all its aliases, release
the post-forward replica when arriving from `SHARDED_POST_FORWARD`, and set
state `UNSHARDED`. -/
def to_unsharded (s : Sys) : Except Err Unit × Sys :=
  match s.p._unsharded_param with
  | none => (.error (.attributeError "_unsharded_param"), s)
  | some u =>
    let differ := s.p.sharded_param.requires_grad ≠ u.requires_grad
    let u2 := if differ then
        { u with requires_grad := s.p.sharded_param.requires_grad } else u
    let env2 := _setattr_on_modules s.p._module_info u.id s.env
    let p1 := { s.p with _unsharded_param := some u2 }
    let p2 := if s.p.sharded_state = .SHARDED_POST_FORWARD then
        { p1 with
          _sharded_post_forward_param := none
          _sharded_post_forward_param_data := none }
      else p1
    (.ok (),
      { s with
        p := { p2 with sharded_state := .UNSHARDED }
        env := env2
        rgWrites := s.rgWrites + (if differ then 1 else 0) })

/-- `to_sharded_post_forward`: DTensor parameters are unsupported (checked
before the state assert); otherwise asserts state `UNSHARDED`, a configured
post-forward mesh and a single all-gather output; the output's numel must
divide by the post-forward shard world size; then this rank's slice of the
output is cloned into fresh storage, wrapped as the post-forward parameter
(the DTensor wrap asserts an HSDP post-forward mesh), bound on the modules;
the unsharded buffers are freed and the state becomes
`SHARDED_POST_FORWARD`. -/
def to_sharded_post_forward (s : Sys) : Except Err Unit × Sys :=
  if s.p.is_dtensor then
    (.error (.notImplemented "Resharding to smaller mesh with TP is not supported yet"), s)
  else
    match _assert_in_states [.UNSHARDED] s.p.sharded_state with
    | .error e => (.error e, s)
    | .ok _ =>
      match s.p.post_forward_mesh_info with
      | none => (.error (.assertionError "self.post_forward_mesh_info is not None"), s)
      | some mi =>
        match s.p.all_gather_outputs with
        | [b] =>
          let w := mi.shard_mesh_size
          if b.numel % w ≠ 0 then
            (.error (.divisibility b.numel w), s)
          else
            let sharded_numel := b.numel / w
            let cloneT : Tensor1D :=
              ⟨s.nextId, b.dtype, sharded_numel, sharded_numel,
                (b.data.drop (sharded_numel * mi.shard_mesh_rank)).take sharded_numel⟩
            let s1 : Sys :=
              { s with
                p := { s.p with _sharded_post_forward_param_data := some cloneT }
                nextId := s.nextId + 1 }
            if ¬ mi.is_hsdp then
              (.error (.assertionError
                "isinstance(self.post_forward_mesh_info, HSDPMeshInfo)"), s1)
            else
              let pf : ParamObj := ⟨s1.nextId, true⟩
              let s2 : Sys :=
                { s1 with
                  p := { s1.p with _sharded_post_forward_param := some pf }
                  env := _setattr_on_modules s1.p._module_info pf.id s1.env
                  nextId := s1.nextId + 1 }
              let s3 := free_unsharded_param s2
              (.ok (), { s3 with p := { s3.p with sharded_state := .SHARDED_POST_FORWARD } })
        | _ => (.error (.assertionError "len(self.all_gather_outputs) == 1"), s)

/-- The `all_gather_inputs` property: legal only from `SHARDED` or
`SHARDED_POST_FORWARD`.  From `SHARDED`, a defined pre-all-gather hook is
invoked, the metadata and the input sizes are recorded and the inputs are
returned flattened; without a hook the padded sharded storage is returned,
dtype-cast when a `param_dtype` is set.  From `SHARDED_POST_FORWARD`, a
defined pre-all-gather hook is unsupported; without one the post-forward
replica's data is returned, dtype-cast likewise. -/
def all_gather_inputs (s : Sys) : Except Err (List Tensor1D) × Sys :=
  match _assert_in_states [.SHARDED, .SHARDED_POST_FORWARD] s.p.sharded_state with
  | .error e => (.error e, s)
  | .ok _ =>
    if s.p.sharded_state = .SHARDED then
      match s.p.fsdp_pre_all_gather with
      | some pr =>
        (.ok (pr.1.map ndt_flatten),
          { s with p :=
              { s.p with _extensions_data :=
                  ⟨some pr.2, pr.1.map NDT.size⟩ } })
      | none =>
        let tn := _to_dtype_if_needed s.p._sharded_param_data s.p.param_dtype s.nextId
        (.ok [tn.1], { s with nextId := tn.2 })
    else
      match s.p.fsdp_pre_all_gather with
      | some _ => (.error (.notImplemented ""), s)
      | none =>
        match s.p._sharded_post_forward_param_data with
        | none => (.error (.attributeError "_sharded_post_forward_param_data"), s)
        | some dta =>
          let tn := _to_dtype_if_needed dta s.p.param_dtype s.nextId
          (.ok [tn.1], { s with nextId := tn.2 })

/-- The values currently exposed by the sharded parameter view (the first
`sharded_size`-many elements of the padded sharded storage). -/
def sharded_view_vals (p : FSDPParam) : List Int :=
  p._sharded_param_data.data.take p.sharded_size.prod

/-! ### Helper lemmas -/

theorem setattr_fold_lookup (l : List (Nat × String)) (pid : Nat) :
    ∀ (env : Env) (k : Nat × String),
      (l.foldl (fun e km => setattr_param e km.1 km.2 pid) env) k
        = if k ∈ l then some pid else env k := by
  induction l with
  | nil => intro env k; simp
  | cons hd tl ih =>
    intro env k
    simp only [List.foldl_cons, ih]
    by_cases htl : k ∈ tl
    · simp [htl]
    · by_cases hhd : k = hd
      · simp [htl, hhd, setattr_param]
      · simp [htl, hhd, setattr_param]

theorem setattr_on_modules_lookup (mi : ParamModuleInfo) (pid : Nat) (env : Env)
    (k : Nat × String)
    (hk : k = (mi.module, mi.param_name)
      ∨ k ∈ mi.shared_modules.zip mi.shared_param_names) :
    _setattr_on_modules mi pid env k = some pid := by
  unfold _setattr_on_modules
  rw [setattr_fold_lookup]
  rcases hk with h | h
  · by_cases hm : k ∈ mi.shared_modules.zip mi.shared_param_names
    · simp [hm]
    · simp [hm, h, setattr_param]
  · simp [h]

theorem free_storage_elems (t : Tensor1D) : (free_storage t).storageElems = 0 := by
  unfold free_storage
  split <;> simp_all

theorem mem_map_free_storage {l : List Tensor1D} {t : Tensor1D}
    (h : t ∈ l.map free_storage) : t.storageElems = 0 := by
  obtain ⟨a, _, rfl⟩ := List.mem_map.mp h
  exact free_storage_elems a

theorem free_storage_idem (t : Tensor1D) :
    free_storage (free_storage t) = free_storage t := by
  unfold free_storage
  split <;> simp_all

theorem map_free_storage_idem (l : List Tensor1D) :
    (l.map free_storage).map free_storage = l.map free_storage := by
  induction l with
  | nil => rfl
  | cons a t ih => simp [free_storage_idem, ih]

theorem map_comp_enumFrom {α β : Type} (g : α → β) :
    ∀ (n : Nat) (l : List α),
      ((List.enumFrom n l).map fun p => g p.2) = l.map g := by
  intro n l
  induction l generalizing n with
  | nil => rfl
  | cons a t ih => simp [List.enumFrom, ih]

theorem range_map_min_sum (c m : Nat) : ∀ w : Nat,
    (((List.range w).map fun i => min c (m - i * c)).sum) = min m (w * c) := by
  intro w
  induction w with
  | zero => simp
  | succ n ih =>
    rw [List.range_succ, List.map_append, List.sum_append]
    simp only [List.map_cons, List.map_nil, List.sum_cons, List.sum_nil, ih]
    have h1 : (n + 1) * c = n * c + c := by ring
    rw [h1]
    omega

theorem le_mul_ceil_div (n w : Nat) (hw : 1 ≤ w) : n ≤ w * ceil_div n w := by
  unfold ceil_div
  have h := Nat.div_add_mod (n + w - 1) w
  have h2 : (n + w - 1) % w < w := Nat.mod_lt _ (by omega)
  omega

theorem chunkDim0Sizes_length (n w : Nat) : (chunkDim0Sizes n w).length = w := by
  simp [chunkDim0Sizes]

theorem chunkDim0Sizes_sum (n w : Nat) (hw : 1 ≤ w) :
    (chunkDim0Sizes n w).sum = n := by
  unfold chunkDim0Sizes
  rw [range_map_min_sum]
  exact Nat.min_eq_left (le_mul_ceil_div n w hw)

theorem chunk_dim0_eq (n w r : Nat) (h : r < w) :
    chunk_dim0 n w r = min (ceil_div n w) (n - r * ceil_div n w) := by
  unfold chunk_dim0 chunkDim0Sizes
  rw [List.getD_eq_getElem?_getD, List.getElem?_map, List.getElem?_range h]
  rfl

/-! ### Concrete instances used by witnesses and counterexamples -/

/-- The empty module-binding environment. -/
def envEmpty : Env := fun _ => none

/-- A concrete target device. -/
def devCuda : Device := ⟨"cuda", 0⟩

/-- A concrete module info: one owning module, no sharing. -/
def minfoB : ParamModuleInfo := ⟨0, "weight", [], []⟩

/-- A concrete mesh: 3 ranks, this rank is 2 (Scenario B). -/
def meshB : FSDPMeshInfo := ⟨⟨0, none, none⟩, 2, 3, 0, none, false⟩

/-- A concrete plain 10 x 4 parameter on the target device (Scenario B). -/
def inpB : ParamInput :=
  { device := ⟨"cuda", 0⟩
    dtype := .float32
    size := [10, 4]
    local_size := [10, 4]
    data := (List.range 40).map Int.ofNat
    requires_grad := true
    is_dtensor := false
    _tp_spec := none
    fsdp_pre_all_gather := none
    fsdp_post_all_gather := none }

/-! ### C2: chunk partitioner shapes -/

/-- C2 (amended): for every shard count `w ≥ 1` and dim-0 size `n`, the `w`
chunk dim-0 sizes sum to `n`; every chunk that is followed by a nonempty
chunk has the full size `ceil(n / w)` (so the chunks are pairwise equal
except possibly the last nonempty one, after which only empty chunks
follow); and every constructed parameter's padded sharded size is the first
chunk's size with the trailing dims, its sharded size the rank's chunk
size.  The claim's stronger clauses — all chunks but the last equal, and
every chunk of size `ceil(n/w)` or `0` — fail (see the counterexample). -/
theorem c2_chunk_shapes :
    (∀ n w, 1 ≤ w →
      (chunkDim0Sizes n w).length = w ∧ (chunkDim0Sizes n w).sum = n)
    ∧ (∀ n w i, i + 1 < w → chunk_dim0 n w (i + 1) ≠ 0 →
        chunk_dim0 n w i = ceil_div n w)
    ∧ (∀ (inp : ParamInput) (module_info : ParamModuleInfo)
        (mesh_info : FSDPMeshInfo) (pfmi : Option FSDPMeshInfo)
        (device : Device) (env : Env) (s2 : Sys),
        fsdp_param_init inp module_info mesh_info pfmi device env = .ok s2 →
        s2.p.padded_sharded_param_size
            = (chunkDim0Sizes (inp.local_size.headD 0)
                mesh_info.shard_mesh_size).headD 0 :: inp.local_size.tail
          ∧ s2.p.sharded_size
            = _get_dim0_chunked_size
                (chunk_dim0 (inp.local_size.headD 0) mesh_info.shard_mesh_size
                  mesh_info.shard_mesh_rank)
                inp.local_size.tail) := by
  refine ⟨fun n w hw => ⟨chunkDim0Sizes_length n w, chunkDim0Sizes_sum n w hw⟩,
    ?_, ?_⟩
  · intro n w i hi hne
    rw [chunk_dim0_eq n w (i + 1) hi] at hne
    rw [chunk_dim0_eq n w i (by omega)]
    have hmul : (i + 1) * ceil_div n w = i * ceil_div n w + ceil_div n w := by
      ring
    omega
  · intro inp module_info mesh_info pfmi device env s2 h
    simp only [fsdp_param_init] at h
    split at h
    · exact Except.noConfusion h
    · split at h
      · exact Except.noConfusion h
      · split at h
        · exact Except.noConfusion h
        · split at h
          · exact Except.noConfusion h
          · rw [Except.ok.injEq] at h
            subst h
            exact ⟨rfl, rfl⟩

/-- C2 counterexample: at dim-0 size 5 and shard count 4 the chunk dim-0
sizes are `2, 2, 1, 0`: chunk 2 differs from chunk 0 although it is not the
last of the 4 chunks, and its size 1 is neither `ceil(5/4) = 2` nor 0. -/
theorem c2_counterexample :
    chunkDim0Sizes 5 4 = [2, 2, 1, 0]
    ∧ chunk_dim0 5 4 0 ≠ chunk_dim0 5 4 2
    ∧ chunk_dim0 5 4 2 ≠ ceil_div 5 4
    ∧ chunk_dim0 5 4 2 ≠ 0 := by
  decide

/-- C2 witness: Scenario B — 3 shards of a `[10, 4]` tensor sum to 10 rows;
rank 2 gets `shardedSize [2, 4]` and `paddedShardedSize [4, 4]`. -/
theorem c2_witness :
    (chunkDim0Sizes 10 3).sum = 10
    ∧ ∃ s2, fsdp_param_init inpB minfoB meshB none devCuda envEmpty = .ok s2
        ∧ s2.p.sharded_size = [2, 4]
        ∧ s2.p.padded_sharded_param_size = [4, 4] := by
  refine ⟨(c2_chunk_shapes.1 10 3 (by decide)).2, ?_⟩
  obtain ⟨s2, hs⟩ :
      ∃ s2, fsdp_param_init inpB minfoB meshB none devCuda envEmpty = .ok s2 :=
    ⟨_, rfl⟩
  have hc := c2_chunk_shapes.2.2 inpB minfoB meshB none devCuda envEmpty s2 hs
  refine ⟨s2, hs, ?_, ?_⟩
  · rw [hc.2]; decide
  · rw [hc.1]; decide

/-! ### C7: construction-time extension configuration errors -/

theorem get_dim0_chunked_size_of_pos {d : Nat} {rest : List Nat}
    (hq : 0 < rest.prod) : _get_dim0_chunked_size d rest = d :: rest := by
  unfold _get_dim0_chunked_size
  rcases Nat.eq_zero_or_pos d with h0 | h0
  · simp [h0]
  · rw [if_neg]
    intro hmul
    rcases Nat.mul_eq_zero.mp hmul with h | h <;> omega

/-- C7: with a plain (non-DTensor) parameter already on the target device
and a nonzero trailing-dims row size, construction fails with the
configuration assertion when exactly one of the two all-gather hooks is
defined, and with the uneven-sharding error when both are defined but the
padded dim-0 rows differ from this rank's actual chunk rows; both are
raised by `fsdp_param_init` itself, so no parameter (and no state) exists
afterwards. -/
theorem c7_extension_config_errors :
    ∀ (inp : ParamInput) (module_info : ParamModuleInfo)
      (mesh_info : FSDPMeshInfo) (pfmi : Option FSDPMeshInfo)
      (device : Device) (env : Env),
      inp.is_dtensor = false → inp.device = device →
      0 < inp.local_size.tail.prod →
      ((inp.fsdp_pre_all_gather.isSome ≠ inp.fsdp_post_all_gather.isSome →
         fsdp_param_init inp module_info mesh_info pfmi device env
           = .error (.assertionError
               "Both fsdp_pre_all_gather and fsdp_post_all_gather should be defined if using all-gather extensions"))
       ∧ (inp.fsdp_pre_all_gather.isSome = true →
          inp.fsdp_post_all_gather.isSome = true →
          (chunkDim0Sizes (inp.local_size.headD 0)
              mesh_info.shard_mesh_size).headD 0
            ≠ chunk_dim0 (inp.local_size.headD 0) mesh_info.shard_mesh_size
                mesh_info.shard_mesh_rank →
          fsdp_param_init inp module_info mesh_info pfmi device env
            = .error (.notImplemented
                "FSDP all-gather extensions require even sharding on dim-0"))) := by
  intro inp module_info mesh_info pfmi device env hdt hdev hq
  have hnot : ¬ (inp.device ≠ device ∧ inp.device.type ≠ "meta") := by
    intro hc; exact hc.1 hdev
  have hdg : dtensor_global_info inp mesh_info
      = .ok ((if mesh_info.is_hsdp then [Placement.replicate, Placement.shard 0]
          else [Placement.shard 0]), inp.size) := by
    simp [dtensor_global_info, hdt]
  have hget := @get_dim0_chunked_size_of_pos
    (chunk_dim0 (inp.local_size.headD 0) mesh_info.shard_mesh_size
      mesh_info.shard_mesh_rank)
    inp.local_size.tail hq
  constructor
  · intro hhook
    simp only [fsdp_param_init]
    rw [if_neg hnot, hdg]
    simp only []
    rw [if_neg (by rw [hget]; exact fun hc => hc rfl)]
    have hext : _init_extensions_check inp
        ((chunkDim0Sizes (inp.local_size.headD 0)
            mesh_info.shard_mesh_size).headD 0 :: inp.local_size.tail)
        (chunk_dim0 (inp.local_size.headD 0) mesh_info.shard_mesh_size
            mesh_info.shard_mesh_rank :: inp.local_size.tail)
        = .error (.assertionError
            "Both fsdp_pre_all_gather and fsdp_post_all_gather should be defined if using all-gather extensions") := by
      unfold _init_extensions_check
      rw [if_pos hhook]
    rw [hext]
  · intro hpre hpost hneq
    simp only [fsdp_param_init]
    rw [if_neg hnot, hdg]
    simp only []
    rw [if_neg (by rw [hget]; exact fun hc => hc rfl)]
    have hext : _init_extensions_check inp
        ((chunkDim0Sizes (inp.local_size.headD 0)
            mesh_info.shard_mesh_size).headD 0 :: inp.local_size.tail)
        (chunk_dim0 (inp.local_size.headD 0) mesh_info.shard_mesh_size
            mesh_info.shard_mesh_rank :: inp.local_size.tail)
        = .error (.notImplemented
            "FSDP all-gather extensions require even sharding on dim-0") := by
      unfold _init_extensions_check
      rw [if_neg (by rw [hpre, hpost]; exact fun hc => hc rfl)]
      rw [if_pos ⟨hpre, by intro hc; injection hc with h1 h2; exact hneq h1⟩]
    rw [hext]

/-- Only the pre-all-gather hook defined (Scenario C). -/
def inpC : ParamInput := { inpB with fsdp_pre_all_gather := some ([], 0) }

/-- Both hooks defined, on the unevenly sharded `[10, 4]` of Scenario B. -/
def inpC2 : ParamInput :=
  { inpB with
    fsdp_pre_all_gather := some ([], 0)
    fsdp_post_all_gather := some (fun _ _ _ => ([], [])) }

/-- C7 witness: Scenario C — only `fsdp_pre_all_gather` defined raises the
configuration assertion; both hooks with uneven dim-0 sharding (10 rows
over 3 shards, rank 2) raise the even-sharding error. -/
theorem c7_witness :
    (fsdp_param_init inpC minfoB meshB none devCuda envEmpty
      = .error (.assertionError
          "Both fsdp_pre_all_gather and fsdp_post_all_gather should be defined if using all-gather extensions"))
    ∧ (fsdp_param_init inpC2 minfoB meshB none devCuda envEmpty
      = .error (.notImplemented
          "FSDP all-gather extensions require even sharding on dim-0")) := by
  constructor
  · exact (c7_extension_config_errors inpC minfoB meshB none devCuda envEmpty
      rfl rfl (by decide)).1 (by decide)
  · exact (c7_extension_config_errors inpC2 minfoB meshB none devCuda envEmpty
      rfl rfl (by decide)).2 rfl rfl (by decide)

/-! ### C10: the device-mismatch check exempts meta tensors -/

theorem dtensor_global_info_ne_device_err (inp : ParamInput)
    (me : FSDPMeshInfo) (a b : Device) :
    dtensor_global_info inp me ≠ .error (.deviceMismatch a b) := by
  intro h
  unfold dtensor_global_info at h
  repeat' split at h
  all_goals simp_all

theorem init_extensions_check_ne_device_err (inp : ParamInput)
    (padded local_sz : List Nat) (a b : Device) :
    _init_extensions_check inp padded local_sz ≠ .error (.deviceMismatch a b) := by
  intro h
  unfold _init_extensions_check at h
  repeat' split at h
  all_goals simp_all

/-- C10: construction fails with the device-mismatch error exactly when the
parameter's device differs from the target device and its device type is
not "meta"; in particular meta parameters never trigger it, and no other
part of construction raises it. -/
theorem c10_device_check_meta_exempt :
    ∀ (inp : ParamInput) (module_info : ParamModuleInfo)
      (mesh_info : FSDPMeshInfo) (pfmi : Option FSDPMeshInfo)
      (device : Device) (env : Env),
      (∃ a b, fsdp_param_init inp module_info mesh_info pfmi device env
          = .error (.deviceMismatch a b))
        ↔ (inp.device ≠ device ∧ inp.device.type ≠ "meta") := by
  intro inp module_info mesh_info pfmi device env
  constructor
  · rintro ⟨a, b, h⟩
    by_cases hc : inp.device ≠ device ∧ inp.device.type ≠ "meta"
    · exact hc
    · exfalso
      simp only [fsdp_param_init] at h
      rw [if_neg hc] at h
      split at h
      · rename_i e heq
        rw [Except.error.injEq] at h
        subst h
        exact dtensor_global_info_ne_device_err inp mesh_info a b heq
      · split at h
        · simp at h
        · split at h
          · rename_i e2 heq2
            rw [Except.error.injEq] at h
            subst h
            exact init_extensions_check_ne_device_err inp _ _ a b heq2
          · simp at h
  · rintro ⟨h1, h2⟩
    refine ⟨device, inp.device, ?_⟩
    simp only [fsdp_param_init]
    rw [if_pos ⟨h1, h2⟩]

/-- A parameter left on cpu while the target device is cuda. -/
def inpCPU : ParamInput := { inpB with device := ⟨"cpu", 0⟩ }

/-- A meta parameter, target device cuda. -/
def inpMeta : ParamInput := { inpB with device := ⟨"meta", 0⟩ }

/-- C10 witness: a cpu parameter targeted at cuda triggers the
device-mismatch error; a meta parameter targeted at cuda does not. -/
theorem c10_witness :
    (∃ a b, fsdp_param_init inpCPU minfoB meshB none devCuda envEmpty
        = .error (.deviceMismatch a b))
    ∧ ¬ (∃ a b, fsdp_param_init inpMeta minfoB meshB none devCuda envEmpty
        = .error (.deviceMismatch a b)) := by
  constructor
  · exact (c10_device_check_meta_exempt inpCPU minfoB meshB none devCuda
      envEmpty).mpr ⟨by decide, by decide⟩
  · intro hex
    have h := (c10_device_check_meta_exempt inpMeta minfoB meshB none devCuda
      envEmpty).mp hex
    exact h.2 rfl

/-- A concrete constructed parameter used by the operation witnesses: a
plain `[4, 2]` tensor sharded over 2 ranks, rank 0, no extensions. -/
def baseParam : FSDPParam :=
  { _module_info := ⟨0, "weight", [], []⟩
    mesh_info := ⟨⟨0, none, none⟩, 0, 2, 0, none, false⟩
    post_forward_mesh_info := none
    device := ⟨"cuda", 0⟩
    is_dtensor := false
    _global_placements := [.shard 0]
    _global_size := [4, 2]
    _orig_size := [4, 2]
    sharded_size := [2, 2]
    padded_sharded_param_size := [2, 2]
    sharded_post_forward_size := []
    _sharded_param_data := ⟨0, .float32, 4, 4, [0, 1, 2, 3]⟩
    sharded_param := ⟨1, true⟩
    _sharded_post_forward_param_data := none
    _sharded_post_forward_param := none
    _unsharded_param := none
    all_gather_outputs := []
    _extensions_data := ExtensionsData.clear
    _unsharded_inner_tensors := []
    sharded_state := .SHARDED
    orig_dtype := .float32
    param_dtype := none
    reduce_dtype := none
    fsdp_pre_all_gather := none
    fsdp_post_all_gather := none }

/-- The base parameter wrapped in a system with empty bindings. -/
def baseSys : Sys := ⟨baseParam, envEmpty, 10, 0⟩

/-- The base parameter after the first all-gather: one filled all-gather
output and a constructed unsharded view object (id 5). -/
def sysU : Sys :=
  { baseSys with
    p := { baseParam with
           all_gather_outputs := [⟨2, .float32, 8, 8, [0, 1, 2, 3, 4, 5, 6, 7]⟩]
           _unsharded_param := some ⟨5, [0, 1, 2, 3, 4, 5, 6, 7], true⟩ } }

/-! ### C1: the unsharded view object is constructed at most once -/

/-- C1: a successful first `init_unsharded_param` call constructs the
unsharded view object; every later call keeps the very same object (same
identity, same requires-grad flag) — it is the whole call's no-op when no
post-all-gather hook is defined, and with a hook it only re-runs the
reassembly in place, clearing the single-use metadata while leaving the
module bindings, the sharded storage and the state untouched. -/
theorem c1_unsharded_param_constructed_once :
    (∀ s : Sys, s.p._unsharded_param = none →
      (init_unsharded_param s).1 = .ok () →
      ((init_unsharded_param s).2.p._unsharded_param).isSome = true)
    ∧ (∀ (s : Sys) (u : UnshardedParam), s.p._unsharded_param = some u →
      (init_unsharded_param s).1 = .ok ()
      ∧ (∃ u2, (init_unsharded_param s).2.p._unsharded_param = some u2
          ∧ u2.id = u.id ∧ u2.requires_grad = u.requires_grad)
      ∧ (s.p.fsdp_post_all_gather = none → init_unsharded_param s = (.ok (), s))
      ∧ (s.p.fsdp_post_all_gather.isSome = true →
          (init_unsharded_param s).2.p._extensions_data = ExtensionsData.clear
          ∧ (init_unsharded_param s).2.env = s.env
          ∧ (init_unsharded_param s).2.p._sharded_param_data
              = s.p._sharded_param_data
          ∧ (init_unsharded_param s).2.p.sharded_state = s.p.sharded_state
          ∧ (init_unsharded_param s).2.p.all_gather_outputs
              = s.p.all_gather_outputs)) := by
  constructor
  · intro s h hok
    simp only [init_unsharded_param, h] at hok ⊢
    cases hpost : s.p.fsdp_post_all_gather with
    | some postFn => simp [hpost]
    | none =>
      simp only [hpost] at hok ⊢
      match hout : s.p.all_gather_outputs with
      | [] => simp [hout] at hok
      | [b] => simp [hout]
      | b :: b2 :: tl => simp [hout] at hok
  · intro s u h
    cases hpost : s.p.fsdp_post_all_gather with
    | some postFn => simp [init_unsharded_param, h, hpost]
    | none => simp [init_unsharded_param, h, hpost]

/-- C1 witness: on the concrete post-all-gather state `sysU` (no hooks) a
repeat call is the identity, and on the pre-first-call state a successful
call constructs the view. -/
theorem c1_witness :
    init_unsharded_param sysU = (.ok (), sysU)
    ∧ ((init_unsharded_param
          { baseSys with
            p := { baseParam with
                   all_gather_outputs :=
                     [⟨2, .float32, 8, 8, [0, 1, 2, 3, 4, 5, 6, 7]⟩] } }).2.p._unsharded_param).isSome
        = true := by
  constructor
  · exact (c1_unsharded_param_constructed_once.2 sysU ⟨5, [0, 1, 2, 3, 4, 5, 6, 7], true⟩
      rfl).2.2.1 rfl
  · exact c1_unsharded_param_constructed_once.1 _ rfl rfl

/-! ### C3: Sharded -> Unsharded -> Sharded leaves the shard unchanged -/

/-- C3: from the `SHARDED` state with a constructed unsharded view,
`to_unsharded` followed by `to_sharded` leaves the padded sharded storage
(and hence the sharded view's values) bit-for-bit unchanged, leaves the
sharded parameter object untouched, and returns to the `SHARDED` state:
neither transition writes to the shard's storage. -/
theorem c3_round_trip_preserves_shard :
    ∀ (s : Sys) (u : UnshardedParam),
      s.p.sharded_state = .SHARDED → s.p._unsharded_param = some u →
      (to_unsharded s).1 = .ok ()
      ∧ (to_sharded (to_unsharded s).2).p._sharded_param_data
          = s.p._sharded_param_data
      ∧ sharded_view_vals (to_sharded (to_unsharded s).2).p
          = sharded_view_vals s.p
      ∧ (to_sharded (to_unsharded s).2).p.sharded_param = s.p.sharded_param
      ∧ (to_sharded (to_unsharded s).2).p.sharded_state = .SHARDED := by
  intro s u hstate h
  simp [to_unsharded, to_sharded, free_unsharded_param, sharded_view_vals,
    h, hstate]

/-- C3 witness: the round trip on the concrete state `sysU` preserves the
shard's data. -/
theorem c3_witness :
    (to_sharded (to_unsharded sysU).2).p._sharded_param_data
        = sysU.p._sharded_param_data
    ∧ (to_sharded (to_unsharded sysU).2).p.sharded_state = .SHARDED := by
  have h := c3_round_trip_preserves_shard sysU ⟨5, [0, 1, 2, 3, 4, 5, 6, 7], true⟩
    rfl rfl
  exact ⟨h.2.1, h.2.2.2.2⟩

/-! ### C4: wrong-state contract assertions -/

/-- C4 (amended): reading `all_gather_inputs` in the `UNSHARDED` state
fails with the state-contract assertion naming the expected and actual
states, leaving the system unchanged; calling `to_sharded_post_forward` in
any state other than `UNSHARDED` likewise fails without changing the
system — with the state-contract assertion for non-DTensor parameters, but
for DTensor parameters with the unsupported-TP-resharding error, which the
code raises before the state check in every state. -/
theorem c4_wrong_state_assertions :
    (∀ s : Sys, s.p.sharded_state = .UNSHARDED →
      all_gather_inputs s
        = (.error (.assertInStates [.SHARDED, .SHARDED_POST_FORWARD] .UNSHARDED), s))
    ∧ (∀ s : Sys, s.p.sharded_state ≠ .UNSHARDED → s.p.is_dtensor = false →
      to_sharded_post_forward s
        = (.error (.assertInStates [.UNSHARDED] s.p.sharded_state), s))
    ∧ (∀ s : Sys, s.p.is_dtensor = true →
      to_sharded_post_forward s
        = (.error (.notImplemented
            "Resharding to smaller mesh with TP is not supported yet"), s)) := by
  refine ⟨?_, ?_, ?_⟩
  · intro s h
    simp [all_gather_inputs, _assert_in_states, h]
  · intro s h hdt
    simp [to_sharded_post_forward, _assert_in_states, h, hdt]
  · intro s hdt
    simp [to_sharded_post_forward, hdt]

/-- Whether a result is the state-contract assertion. -/
def is_state_contract_err (r : Except Err Unit) : Bool :=
  match r with
  | .error (.assertInStates _ _) => true
  | _ => false

/-- The base parameter as a DTensor (tensor-parallel) parameter, still in
the `SHARDED` state. -/
def sysDT : Sys := { baseSys with p := { baseParam with is_dtensor := true } }

/-- C4 counterexample: on a DTensor parameter in the `SHARDED` state (not
`UNSHARDED`), `to_sharded_post_forward` fails — but with the
TP-resharding-unsupported error, not with the state-contract assertion the
claim promises for every parameter. -/
theorem c4_counterexample :
    sysDT.p.sharded_state ≠ .UNSHARDED
    ∧ (to_sharded_post_forward sysDT).1
        = .error (.notImplemented
            "Resharding to smaller mesh with TP is not supported yet")
    ∧ is_state_contract_err (to_sharded_post_forward sysDT).1 = false := by
  exact ⟨by decide, rfl, rfl⟩

/-- The base parameter moved to the `UNSHARDED` state. -/
def sysUW : Sys :=
  { baseSys with p := { baseParam with sharded_state := .UNSHARDED } }

/-- C4 witness: concrete wrong-state calls produce the state-contract
assertion and leave the system unchanged. -/
theorem c4_witness :
    (all_gather_inputs sysUW).1
        = .error (.assertInStates [.SHARDED, .SHARDED_POST_FORWARD] .UNSHARDED)
    ∧ (all_gather_inputs sysUW).2 = sysUW
    ∧ (to_sharded_post_forward baseSys).1
        = .error (.assertInStates [.UNSHARDED] .SHARDED)
    ∧ (to_sharded_post_forward baseSys).2 = baseSys := by
  have h1 := c4_wrong_state_assertions.1 sysUW rfl
  have h2 := c4_wrong_state_assertions.2.1 baseSys (by decide) rfl
  exact ⟨by rw [h1], by rw [h1], by rw [h2]; rfl, by rw [h2]⟩

/-! ### C9: to_unsharded rebinds everywhere, syncs requires-grad, releases
the post-forward replica -/

/-- C9: with a constructed unsharded view, `to_unsharded` succeeds, binds
that same view object on the owning module and on every shared module/name
alias in the one call, ends with the view's requires-grad flag equal to the
shard's — performing the expensive flag assignment only when the two flags
differ (the boundary-crossing counter moves only then, and the view object
is left entirely untouched when they agree) — releases the post-forward
replica and its data when arriving from `SHARDED_POST_FORWARD`, and sets
the state to `UNSHARDED`. -/
theorem c9_to_unsharded_rebinds :
    ∀ (s : Sys) (u : UnshardedParam), s.p._unsharded_param = some u →
      (to_unsharded s).1 = .ok ()
      ∧ (to_unsharded s).2.env
          (s.p._module_info.module, s.p._module_info.param_name) = some u.id
      ∧ (∀ k ∈ s.p._module_info.shared_modules.zip
            s.p._module_info.shared_param_names,
          (to_unsharded s).2.env k = some u.id)
      ∧ (∃ u2, (to_unsharded s).2.p._unsharded_param = some u2 ∧ u2.id = u.id
          ∧ u2.requires_grad = s.p.sharded_param.requires_grad)
      ∧ (u.requires_grad = s.p.sharded_param.requires_grad →
          (to_unsharded s).2.rgWrites = s.rgWrites
          ∧ (to_unsharded s).2.p._unsharded_param = some u)
      ∧ (u.requires_grad ≠ s.p.sharded_param.requires_grad →
          (to_unsharded s).2.rgWrites = s.rgWrites + 1)
      ∧ (s.p.sharded_state = .SHARDED_POST_FORWARD →
          (to_unsharded s).2.p._sharded_post_forward_param = none
          ∧ (to_unsharded s).2.p._sharded_post_forward_param_data = none)
      ∧ (to_unsharded s).2.p.sharded_state = .UNSHARDED := by
  intro s u h
  have hmain : _setattr_on_modules s.p._module_info u.id s.env
      (s.p._module_info.module, s.p._module_info.param_name) = some u.id :=
    setattr_on_modules_lookup _ _ _ _ (Or.inl rfl)
  have hshared : ∀ k ∈ s.p._module_info.shared_modules.zip
      s.p._module_info.shared_param_names,
      _setattr_on_modules s.p._module_info u.id s.env k = some u.id :=
    fun k hk => setattr_on_modules_lookup _ _ _ _ (Or.inr hk)
  by_cases hrg : s.p.sharded_param.requires_grad = u.requires_grad <;>
    by_cases hst : s.p.sharded_state = .SHARDED_POST_FORWARD <;>
      simp [to_unsharded, h, hrg, hst, hmain] <;>
      first
      | exact fun a b hab => (hshared (a, b) hab).symm
      | exact fun a b hab => hshared (a, b) hab
      | (refine ⟨fun a b hab => hshared (a, b) hab, fun hc => ?_⟩
         exact hrg hc.symm)

/-- The base parameter shared between module 0 and module 1 under the same
name, with a constructed unsharded view (Scenario E). -/
def sysShared : Sys :=
  { baseSys with
    p := { baseParam with
           _module_info := ⟨0, "weight", [1], ["weight"]⟩
           _unsharded_param := some ⟨5, [0, 1, 2, 3, 4, 5, 6, 7], true⟩ } }

/-- C9 witness: Scenario E — after one `to_unsharded` call both sharing
modules are bound to the unsharded view (object id 5). -/
theorem c9_witness :
    (to_unsharded sysShared).2.env (0, "weight") = some 5
    ∧ (to_unsharded sysShared).2.env (1, "weight") = some 5
    ∧ (to_unsharded sysShared).2.p.sharded_state = .UNSHARDED := by
  have h := c9_to_unsharded_rebinds sysShared ⟨5, [0, 1, 2, 3, 4, 5, 6, 7], true⟩
    rfl
  exact ⟨h.2.1, h.2.2.1 (1, "weight") (by decide), h.2.2.2.2.2.2.2⟩

/-! ### C6: all_gather_inputs from Sharded and SharedPostForward -/

/-- C6 (amended): `all_gather_inputs` is legal from `SHARDED` — invoking a
defined pre-all-gather hook, recording its metadata and input shapes for
later reassembly and returning the flattened inputs, or else returning the
padded sharded storage dtype-cast when a `param_dtype` is configured — and
legal from `SHARDED_POST_FORWARD` only without a pre-all-gather hook, where
it returns the post-forward replica's data (not the sharded storage),
dtype-cast likewise; a pre-all-gather hook in `SHARDED_POST_FORWARD` is
unsupported and fails. -/
theorem c6_all_gather_inputs_spec :
    ∀ s : Sys,
      (s.p.sharded_state = .SHARDED →
        ∀ pr, s.p.fsdp_pre_all_gather = some pr →
        all_gather_inputs s
          = (.ok (pr.1.map ndt_flatten),
             { s with p := { s.p with _extensions_data :=
                 ⟨some pr.2, pr.1.map NDT.size⟩ } }))
      ∧ (s.p.sharded_state = .SHARDED → s.p.fsdp_pre_all_gather = none →
        (all_gather_inputs s).1
          = .ok [(_to_dtype_if_needed s.p._sharded_param_data s.p.param_dtype
              s.nextId).1])
      ∧ (s.p.sharded_state = .SHARDED_POST_FORWARD →
         s.p.fsdp_pre_all_gather.isSome = true →
        all_gather_inputs s = (.error (.notImplemented ""), s))
      ∧ (s.p.sharded_state = .SHARDED_POST_FORWARD →
         s.p.fsdp_pre_all_gather = none →
         ∀ d, s.p._sharded_post_forward_param_data = some d →
        (all_gather_inputs s).1
          = .ok [(_to_dtype_if_needed d s.p.param_dtype s.nextId).1]) := by
  intro s
  refine ⟨?_, ?_, ?_, ?_⟩
  · intro hs pr hpr
    simp [all_gather_inputs, _assert_in_states, hs, hpr]
  · intro hs hpr
    simp [all_gather_inputs, _assert_in_states, hs, hpr]
  · intro hs hpre
    obtain ⟨pr, hpr⟩ := Option.isSome_iff_exists.mp hpre
    simp [all_gather_inputs, _assert_in_states, hs, hpr]
  · intro hs hpr d hd
    simp [all_gather_inputs, _assert_in_states, hs, hpr, hd]

/-- A parameter with the extension hooks, resharded post-forward. -/
def sysC6 : Sys :=
  { baseSys with
    p := { baseParam with
           sharded_state := .SHARDED_POST_FORWARD
           fsdp_pre_all_gather := some ([⟨7, .uint8, [2, 2], [1, 2, 3, 4]⟩], 42)
           fsdp_post_all_gather := some (fun _ _ _ => ([], [])) } }

/-- C6 counterexample: in the `SHARDED_POST_FORWARD` state with a defined
pre-all-gather hook, `all_gather_inputs` does not invoke the hook — it
fails with `NotImplementedError` — contradicting the claim that reading is
legal from both states with the transform invoked. -/
theorem c6_counterexample :
    sysC6.p.sharded_state = .SHARDED_POST_FORWARD
    ∧ sysC6.p.fsdp_pre_all_gather.isSome = true
    ∧ (all_gather_inputs sysC6).1 = .error (.notImplemented "") := by
  exact ⟨rfl, rfl, rfl⟩

/-- A parameter with the extension hooks in the `SHARDED` state. -/
def sysPre : Sys :=
  { baseSys with
    p := { baseParam with
           fsdp_pre_all_gather := some ([⟨7, .uint8, [2, 2], [1, 2, 3, 4]⟩], 42)
           fsdp_post_all_gather := some (fun _ _ _ => ([], [])) } }

/-- The base parameter resharded post-forward without hooks, with a
post-forward replica present. -/
def sysPfd : Sys :=
  { baseSys with
    p := { baseParam with
           sharded_state := .SHARDED_POST_FORWARD
           _sharded_post_forward_param_data := some ⟨3, .float32, 4, 4, [5, 6, 7, 8]⟩ } }

/-- C6 witness: from `SHARDED` the pre-all-gather hook's buffers come back
flattened with the shapes and metadata recorded; from
`SHARDED_POST_FORWARD` without hooks the replica's data comes back. -/
theorem c6_witness :
    (all_gather_inputs sysPre).1 = .ok [⟨7, .uint8, 4, 4, [1, 2, 3, 4]⟩]
    ∧ (all_gather_inputs sysPre).2.p._extensions_data = ⟨some 42, [[2, 2]]⟩
    ∧ (all_gather_inputs sysPfd).1 = .ok [⟨3, .float32, 4, 4, [5, 6, 7, 8]⟩] := by
  have h1 := (c6_all_gather_inputs_spec sysPre).1 rfl
    ([⟨7, .uint8, [2, 2], [1, 2, 3, 4]⟩], 42) rfl
  have h4 := (c6_all_gather_inputs_spec sysPfd).2.2.2 rfl rfl
    ⟨3, .float32, 4, 4, [5, 6, 7, 8]⟩ rfl
  exact ⟨by rw [h1]; rfl, by rw [h1]; rfl, by rw [h4]; rfl⟩

/-! ### C5: to_sharded_post_forward behavior from Unsharded -/

/-- C5: called in the `UNSHARDED` state (with a configured HSDP post-forward
mesh and the single all-gather output), `to_sharded_post_forward` fails
fatally for DTensor parameters, fails with the divisibility assertion when
the all-gather output's numel is not divisible by the post-forward shard
world size, and otherwise clones this rank's slice into newly owned storage
(a fresh storage identity distinct from the all-gather output's), binds the
post-forward parameter on the module, frees the all-gather output buffers
and the extension inner buffers, and sets the state to
`SHARDED_POST_FORWARD`. -/
theorem c5_to_sharded_post_forward_spec :
    ∀ (s : Sys) (mi : FSDPMeshInfo) (b : Tensor1D),
      s.p.sharded_state = .UNSHARDED →
      s.p.post_forward_mesh_info = some mi →
      s.p.all_gather_outputs = [b] →
      ((s.p.is_dtensor = true →
         to_sharded_post_forward s
           = (.error (.notImplemented
               "Resharding to smaller mesh with TP is not supported yet"), s))
       ∧ (s.p.is_dtensor = false → b.numel % mi.shard_mesh_size ≠ 0 →
         to_sharded_post_forward s
           = (.error (.divisibility b.numel mi.shard_mesh_size), s))
       ∧ (s.p.is_dtensor = false → b.numel % mi.shard_mesh_size = 0 →
          mi.is_hsdp = true →
         (to_sharded_post_forward s).1 = .ok ()
         ∧ (to_sharded_post_forward s).2.p._sharded_post_forward_param_data
             = some ⟨s.nextId, b.dtype, b.numel / mi.shard_mesh_size,
                 b.numel / mi.shard_mesh_size,
                 (b.data.drop
                   ((b.numel / mi.shard_mesh_size) * mi.shard_mesh_rank)).take
                   (b.numel / mi.shard_mesh_size)⟩
         ∧ (∀ t, (to_sharded_post_forward s).2.p._sharded_post_forward_param_data
               = some t → b.id < s.nextId → t.id ≠ b.id)
         ∧ (∃ pf, (to_sharded_post_forward s).2.p._sharded_post_forward_param
               = some pf
             ∧ (to_sharded_post_forward s).2.env
                 (s.p._module_info.module, s.p._module_info.param_name)
                 = some pf.id)
         ∧ (∀ t ∈ (to_sharded_post_forward s).2.p.all_gather_outputs,
             t.storageElems = 0)
         ∧ (∀ t ∈ (to_sharded_post_forward s).2.p._unsharded_inner_tensors,
             t.storageElems = 0)
         ∧ (to_sharded_post_forward s).2.p.sharded_state
             = .SHARDED_POST_FORWARD)) := by
  intro s mi b hstate hpf hout
  refine ⟨?_, ?_, ?_⟩
  · intro hdt
    simp [to_sharded_post_forward, hdt]
  · intro hdt hdiv
    simp [to_sharded_post_forward, hdt, _assert_in_states, hstate, hpf, hout,
      hdiv]
  · intro hdt hdiv hhsdp
    have h2 : (to_sharded_post_forward s).2.p._sharded_post_forward_param_data
        = some ⟨s.nextId, b.dtype, b.numel / mi.shard_mesh_size,
            b.numel / mi.shard_mesh_size,
            (b.data.drop
              ((b.numel / mi.shard_mesh_size) * mi.shard_mesh_rank)).take
              (b.numel / mi.shard_mesh_size)⟩ := by
      simp [to_sharded_post_forward, free_unsharded_param, hdt,
        _assert_in_states, hstate, hpf, hout, hdiv, hhsdp]
    have henv : (to_sharded_post_forward s).2.env
        = _setattr_on_modules s.p._module_info (s.nextId + 1) s.env := by
      simp [to_sharded_post_forward, free_unsharded_param, hdt,
        _assert_in_states, hstate, hpf, hout, hdiv, hhsdp]
    refine ⟨?_, h2, ?_, ?_, ?_, ?_, ?_⟩
    · simp [to_sharded_post_forward, hdt, _assert_in_states, hstate, hpf, hout,
        hdiv, hhsdp]
    · intro t ht hble
      have hx := Option.some.inj (h2.symm.trans ht)
      rw [← hx]
      simp
      omega
    · refine ⟨⟨s.nextId + 1, true⟩, ?_, ?_⟩
      · simp [to_sharded_post_forward, free_unsharded_param, hdt,
          _assert_in_states, hstate, hpf, hout, hdiv, hhsdp]
      · rw [henv]
        exact setattr_on_modules_lookup _ _ _ _ (Or.inl rfl)
    · intro t ht
      simp only [to_sharded_post_forward, free_unsharded_param, hdt,
        _assert_in_states, hstate, hpf, hout, hdiv, hhsdp] at ht
      exact mem_map_free_storage ht
    · intro t ht
      simp only [to_sharded_post_forward, free_unsharded_param, hdt,
        _assert_in_states, hstate, hpf, hout, hdiv, hhsdp] at ht
      exact mem_map_free_storage ht
    · simp [to_sharded_post_forward, free_unsharded_param, hdt,
        _assert_in_states, hstate, hpf, hout, hdiv, hhsdp]

/-- A post-forward mesh: 3 ranks, this rank 1, HSDP. -/
def pfMesh3 : FSDPMeshInfo := ⟨⟨1, none, none⟩, 1, 3, 0, none, true⟩

/-- Unsharded state whose all-gather output has 100 elements (Scenario D). -/
def sys100 : Sys :=
  { baseSys with
    p := { baseParam with
           sharded_state := .UNSHARDED
           post_forward_mesh_info := some pfMesh3
           all_gather_outputs := [⟨2, .float32, 100, 100, List.replicate 100 0⟩] } }

/-- Unsharded state whose all-gather output has 6 elements over 3 ranks. -/
def sysPF : Sys :=
  { baseSys with
    p := { baseParam with
           sharded_state := .UNSHARDED
           post_forward_mesh_info := some pfMesh3
           all_gather_outputs := [⟨2, .float32, 6, 6, [0, 1, 2, 3, 4, 5]⟩] } }

/-- C5 witness: Scenario D — numel 100 over shard count 3 fails with the
divisibility assertion; with numel 6 over 3 ranks, rank 1's slice `[2, 3]`
is cloned into fresh storage (id 10) and the state becomes
`SHARDED_POST_FORWARD`. -/
theorem c5_witness :
    (to_sharded_post_forward sys100).1 = .error (.divisibility 100 3)
    ∧ (to_sharded_post_forward sysPF).1 = .ok ()
    ∧ (to_sharded_post_forward sysPF).2.p._sharded_post_forward_param_data
        = some ⟨10, .float32, 2, 2, [2, 3]⟩
    ∧ (to_sharded_post_forward sysPF).2.p.sharded_state
        = .SHARDED_POST_FORWARD := by
  have h1 := (c5_to_sharded_post_forward_spec sys100 pfMesh3
    ⟨2, .float32, 100, 100, List.replicate 100 0⟩ rfl rfl rfl).2.1 rfl (by decide)
  have h3 := (c5_to_sharded_post_forward_spec sysPF pfMesh3
    ⟨2, .float32, 6, 6, [0, 1, 2, 3, 4, 5]⟩ rfl rfl rfl).2.2 rfl rfl rfl
  exact ⟨by rw [h1]; rfl, h3.1, by rw [h3.2.1]; rfl, h3.2.2.2.2.2.2⟩

/-! ### C8: all-gather output idempotence and free safety -/

/-- C8: `init_all_gather_outputs` allocates on the first call — one buffer
per (numel, dtype) pair, of `numel * world_size` elements, fully backed by
storage — and any later call (with any arguments) is a no-op once buffers
exist; `free_unsharded_param` is total (callable from any state), safe to
repeat, and leaves every all-gather output buffer and every extension inner
buffer with zero-sized storage. -/
theorem c8_init_outputs_idempotent_free_safe :
    (∀ (s : Sys) (numels : List Nat) (dtypes : List Dtype) (w : Nat)
       (dev : Device), s.p.all_gather_outputs ≠ [] →
      init_all_gather_outputs numels dtypes w dev s = s)
    ∧ (∀ (s : Sys) (numels : List Nat) (dtypes : List Dtype) (w : Nat)
       (dev : Device), s.p.all_gather_outputs = [] →
      ((init_all_gather_outputs numels dtypes w dev s).p.all_gather_outputs.map
          Tensor1D.numel = (numels.zip dtypes).map fun nd => nd.1 * w)
      ∧ ((init_all_gather_outputs numels dtypes w dev s).p.all_gather_outputs.map
          Tensor1D.dtype = (numels.zip dtypes).map fun nd => nd.2)
      ∧ (∀ t ∈ (init_all_gather_outputs numels dtypes w dev s).p.all_gather_outputs,
          t.storageElems = t.numel))
    ∧ (∀ (s : Sys) (numels : List Nat) (dtypes : List Dtype) (w : Nat)
       (dev : Device) (numels2 : List Nat) (dtypes2 : List Dtype) (w2 : Nat)
       (dev2 : Device),
      s.p.all_gather_outputs = [] → numels ≠ [] → dtypes ≠ [] →
      init_all_gather_outputs numels2 dtypes2 w2 dev2
          (init_all_gather_outputs numels dtypes w dev s)
        = init_all_gather_outputs numels dtypes w dev s)
    ∧ (∀ s : Sys,
      (∀ t ∈ (free_unsharded_param s).p.all_gather_outputs, t.storageElems = 0)
      ∧ (∀ t ∈ (free_unsharded_param s).p._unsharded_inner_tensors,
          t.storageElems = 0)
      ∧ free_unsharded_param (free_unsharded_param s) = free_unsharded_param s) := by
  have hfirst : ∀ (s : Sys) (numels : List Nat) (dtypes : List Dtype) (w : Nat)
      (dev : Device), s.p.all_gather_outputs = [] →
      (init_all_gather_outputs numels dtypes w dev s).p.all_gather_outputs
        = (numels.zip dtypes).enum.map fun inmdt =>
            (⟨s.nextId + inmdt.1, inmdt.2.2, inmdt.2.1 * w, inmdt.2.1 * w,
              List.replicate (inmdt.2.1 * w) 0⟩ : Tensor1D) := by
    intro s numels dtypes w dev h
    simp [init_all_gather_outputs, h]
  have hnoop : ∀ (s : Sys) (numels : List Nat) (dtypes : List Dtype) (w : Nat)
      (dev : Device), s.p.all_gather_outputs ≠ [] →
      init_all_gather_outputs numels dtypes w dev s = s := by
    intro s numels dtypes w dev h
    simp [init_all_gather_outputs, h]
  refine ⟨hnoop, ?_, ?_, ?_⟩
  · intro s numels dtypes w dev h
    rw [hfirst s numels dtypes w dev h, List.map_map, List.map_map]
    refine ⟨map_comp_enumFrom (fun nd => nd.1 * w) 0 (numels.zip dtypes),
      map_comp_enumFrom (fun nd => nd.2) 0 (numels.zip dtypes), ?_⟩
    intro t ht
    obtain ⟨pr, _, rfl⟩ := List.mem_map.mp ht
    rfl
  · intro s numels dtypes w dev numels2 dtypes2 w2 dev2 h hn hd
    apply hnoop
    rw [hfirst s numels dtypes w dev h]
    rcases numels with _ | ⟨n0, ntl⟩
    · exact absurd rfl hn
    · rcases dtypes with _ | ⟨d0, dtl⟩
      · exact absurd rfl hd
      · simp [List.enumFrom]
  · intro s
    refine ⟨fun t ht => mem_map_free_storage ht,
      fun t ht => mem_map_free_storage ht, ?_⟩
    simp only [free_unsharded_param, map_free_storage_idem]

/-- C8 witness: a first call on empty outputs allocates one fully backed
6-element buffer; a second call with different arguments is the identity;
freeing twice is safe and leaves zero-sized storage. -/
theorem c8_witness :
    ((init_all_gather_outputs [3] [.float32] 2 devCuda baseSys).p.all_gather_outputs.map
        Tensor1D.numel = [6])
    ∧ init_all_gather_outputs [5] [.uint8] 4 devCuda
          (init_all_gather_outputs [3] [.float32] 2 devCuda baseSys)
        = init_all_gather_outputs [3] [.float32] 2 devCuda baseSys
    ∧ (∀ t ∈ (free_unsharded_param sysU).p.all_gather_outputs, t.storageElems = 0)
    ∧ free_unsharded_param (free_unsharded_param sysU)
        = free_unsharded_param sysU := by
  refine ⟨?_, ?_, ?_, ?_⟩
  · have h := (c8_init_outputs_idempotent_free_safe.2.1 baseSys [3] [.float32] 2
      devCuda rfl).1
    rw [h]; rfl
  · exact c8_init_outputs_idempotent_free_safe.2.2.1 baseSys [3] [.float32] 2
      devCuda [5] [.uint8] 4 devCuda rfl (by simp) (by simp)
  · exact fun t ht =>
      (c8_init_outputs_idempotent_free_safe.2.2.2 sysU).1 t ht
  · exact (c8_init_outputs_idempotent_free_safe.2.2.2 sysU).2.2
